import Mathlib

/-!
# ToggleTown Go SDK — verification of the evaluation engine

Shallow embedding of the flag-evaluation core of the ToggleTown Go SDK
(`client.go`): rollout bucketing (SHA-256), targeting-rule matching, flag
evaluation, the typed retrieval wrappers, and the background-refresh
transition, together with theorems settling the specification claims.

Modelling conventions:
* Go `interface{}` values that flow through the evaluator (context entries,
  rule values, default values) are modelled as the tagged union `Value`
  (null / bool / number / string / sequence / object), as suggested by the
  spec's design notes.
* Go `float64` is modelled by `Rat` (exact rationals).  No claim depends on
  IEEE-754 rounding; the numeric operators `gt`/`lt` and the numeric-string
  coercion are carried over structurally.
* Go maps (`map[string]interface{}`) are modelled as association lists with
  first-match lookup.
* Machine integers are modelled as `Nat`/`Int`; where Go computes in
  `uint32`, values are reduced modulo `2^32` explicitly.
-/

/-- Tagged union for the dynamic (`interface{}`) values handled by the
evaluator: JSON null / booleans / numbers / strings / arrays / objects. -/
inductive Value where
  | null
  | bool (b : Bool)
  | num (q : Rat)
  | str (s : String)
  | list (xs : List Value)
  | obj (fields : List (String × Value))

/-- An evaluation context: `map[string]interface{}` in Go. -/
abbrev Ctx := List (String × Value)

/-- Rendering of a number for Go's `fmt.Sprintf("%v", x)`.  Integral values
print without a fractional part, as Go prints `float64(42)` as `42`.
(Non-integral rationals are not rendered digit-for-digit like Go's
shortest-float formatting; no claim depends on that.) -/
def formatNum (q : Rat) : String :=
  if q.den = 1 then toString q.num else toString q

mutual

/-- Model of Go's `fmt.Sprintf("%v", x)` for the value shapes the evaluator
sees: strings render as themselves, booleans as `true`/`false`, nil as
`<nil>`, slices as space-separated elements in brackets, maps in Go's
`map[k:v]` form. -/
def formatV : Value → String
  | Value.null => "<nil>"
  | Value.bool true => "true"
  | Value.bool false => "false"
  | Value.num q => formatNum q
  | Value.str s => s
  | Value.list xs => "[" ++ String.intercalate " " (formatVList xs) ++ "]"
  | Value.obj fields => "map[" ++ String.intercalate " " (formatVObj fields) ++ "]"

def formatVList : List Value → List String
  | [] => []
  | v :: vs => formatV v :: formatVList vs

def formatVObj : List (String × Value) → List String
  | [] => []
  | (k, v) :: kvs => (k ++ ":" ++ formatV v) :: formatVObj kvs

end

/-- Digit run to a natural number. -/
def digitsVal (cs : List Char) : Nat :=
  cs.foldl (fun a c => a * 10 + (c.toNat - 48)) 0

/-- Model of `strconv.ParseFloat(s, 64)` with the error ignored (the Go code
discards the error, leaving `0`): plain decimal forms `[+-]digits[.digits]`
parse; anything else yields `0`.  (Exponent and special forms are not
modelled; no claim depends on numeric-string parsing.) -/
def parseGoFloat (s : String) : Rat :=
  let cs := s.data
  let signAndRest : Bool × List Char :=
    match cs with
    | c :: rest =>
      if c = '-' then (true, rest)
      else if c = '+' then (false, rest)
      else (false, cs)
    | [] => (false, [])
  let neg := signAndRest.1
  let body := signAndRest.2
  let intPart := body.takeWhile (fun c => c.isDigit)
  let restPart := body.drop intPart.length
  let mag : Option Rat :=
    match restPart with
    | [] => if intPart.isEmpty then none else some (digitsVal intPart : Rat)
    | c :: fracPart =>
      if c = '.' ∧ (¬ intPart.isEmpty ∨ ¬ fracPart.isEmpty) ∧
          fracPart.all (fun d => d.isDigit) then
        some ((digitsVal intPart : Rat) +
          (digitsVal fracPart : Rat) / ((10 : Rat) ^ fracPart.length))
      else none
  match mag with
  | none => 0
  | some m => if neg then -m else m

/-- `toFloat` from `client.go`: numbers pass through, numeric strings parse,
everything else coerces to `0`. -/
def toFloat : Value → Rat
  | Value.num q => q
  | Value.str s => parseGoFloat s
  | _ => 0

/-- Model of `strings.Contains s sub`: `sub` occurs as a substring of `s`. -/
def goContains (s sub : String) : Bool :=
  (List.range (s.length + 1)).any (fun i => sub.isPrefixOf (s.drop i))

/-- A targeting rule (`Rule` in `client.go`).  `rollValue = Value.null`
models the Go `nil` interface (absent `rollValue`).  The Go field
`Attribute` is called `attr` here because `attribute` is a Lean keyword. -/
structure Rule where
  attr : String
  operator : String
  value : Value
  percentage : Option Int
  rollValue : Value

/-- A flag configuration (`FlagConfig` in `client.go`). -/
structure FlagConfig where
  key : String
  type : String
  enabled : Bool
  defaultValue : Value
  rules : List Rule
  rolloutPercentage : Int

/-- The operator switch of `matchesRule` in `client.go`, applied to a
resolved attribute value. -/
def applyOperator (operator : String) (attrValue ruleValue : Value) : Bool :=
  match operator with
  | "equals" => formatV attrValue == formatV ruleValue
  | "not_equals" => formatV attrValue != formatV ruleValue
  | "contains" =>
    match attrValue, ruleValue with
    | Value.str a, Value.str r => goContains a r
    | _, _ => false
  | "not_contains" =>
    match attrValue, ruleValue with
    | Value.str a, Value.str r => !goContains a r
    | _, _ => false
  | "gt" => decide (toFloat attrValue > toFloat ruleValue)
  | "lt" => decide (toFloat attrValue < toFloat ruleValue)
  | "in" =>
    match ruleValue with
    | Value.list items => items.any (fun item => formatV attrValue == formatV item)
    | _ => false
  | "not_in" =>
    match ruleValue with
    | Value.list items => !items.any (fun item => formatV attrValue == formatV item)
    | _ => true
  | "always" => true
  | _ => false

/-- `matchesRule` from `client.go`: look the attribute up in the context,
falling back to a nested `attributes` object; a missing attribute (or a
non-object `attributes` entry) means no match. -/
def matchesRule (rule : Rule) (context : Ctx) : Bool :=
  match context.lookup rule.attr with
  | some attrValue => applyOperator rule.operator attrValue rule.value
  | none =>
    match context.lookup "attributes" with
    | some (Value.obj attrs) =>
      match attrs.lookup rule.attr with
      | some attrValue => applyOperator rule.operator attrValue rule.value
      | none => false
    | _ => false

/-! ## SHA-256 (the `crypto/sha256` digest used by `hashString`)

Executable embedding of FIPS 180-4 SHA-256 over byte lists, with all 32-bit
arithmetic carried out in `Nat` and reduced modulo `2^32` explicitly. -/

/-- Reduce modulo `2^32` (Go `uint32` wrap-around). -/
def w32 (x : Nat) : Nat := x % 4294967296

/-- 32-bit right rotation (argument assumed `< 2^32`). -/
def rotr32 (x n : Nat) : Nat := (x >>> n) ||| w32 (x <<< (32 - n))

/-- SHA-256 `Ch(x,y,z) = (x AND y) XOR (NOT x AND z)`. -/
def shaCh (x y z : Nat) : Nat := (x &&& y) ^^^ ((x ^^^ 4294967295) &&& z)

/-- SHA-256 `Maj(x,y,z)`. -/
def shaMaj (x y z : Nat) : Nat := (x &&& y) ^^^ (x &&& z) ^^^ (y &&& z)

/-- SHA-256 `Σ0`. -/
def bigSigma0 (x : Nat) : Nat := rotr32 x 2 ^^^ rotr32 x 13 ^^^ rotr32 x 22

/-- SHA-256 `Σ1`. -/
def bigSigma1 (x : Nat) : Nat := rotr32 x 6 ^^^ rotr32 x 11 ^^^ rotr32 x 25

/-- SHA-256 `σ0`. -/
def smallSigma0 (x : Nat) : Nat := rotr32 x 7 ^^^ rotr32 x 18 ^^^ (x >>> 3)

/-- SHA-256 `σ1`. -/
def smallSigma1 (x : Nat) : Nat := rotr32 x 17 ^^^ rotr32 x 19 ^^^ (x >>> 10)

/-- The 64 SHA-256 round constants. -/
def K256 : List Nat :=
  [1116352408, 1899447441, 3049323471, 3921009573, 961987163, 1508970993,
   2453635748, 2870763221, 3624381080, 310598401, 607225278, 1426881987,
   1925078388, 2162078206, 2614888103, 3248222580, 3835390401, 4022224774,
   264347078, 604807628, 770255983, 1249150122, 1555081692, 1996064986,
   2554220882, 2821834349, 2952996808, 3210313671, 3336571891, 3584528711,
   113926993, 338241895, 666307205, 773529912, 1294757372, 1396182291,
   1695183700, 1986661051, 2177026350, 2456956037, 2730485921, 2820302411,
   3259730800, 3345764771, 3516065817, 3600352804, 4094571909, 275423344,
   430227734, 506948616, 659060556, 883997877, 958139571, 1322822218,
   1537002063, 1747873779, 1955562222, 2024104815, 2227730452, 2361852424,
   2428436474, 2756734187, 3204031479, 3329325298]

/-- The eight working variables of the compression function. -/
structure SHAState where
  a : Nat
  b : Nat
  c : Nat
  d : Nat
  e : Nat
  f : Nat
  g : Nat
  h : Nat

/-- The eight hash words. -/
structure Hash8 where
  h0 : Nat
  h1 : Nat
  h2 : Nat
  h3 : Nat
  h4 : Nat
  h5 : Nat
  h6 : Nat
  h7 : Nat

/-- SHA-256 initial hash value. -/
def initH : Hash8 :=
  ⟨1779033703, 3144134277, 1013904242, 2773480762,
   1359893119, 2600822924, 528734635, 1541459225⟩

/-- One SHA-256 round: `wk` is the pair (message-schedule word, constant). -/
def shaStep (s : SHAState) (wk : Nat × Nat) : SHAState :=
  let t1 := w32 (s.h + bigSigma1 s.e + shaCh s.e s.f s.g + wk.2 + wk.1)
  let t2 := w32 (bigSigma0 s.a + shaMaj s.a s.b s.c)
  ⟨w32 (t1 + t2), s.a, s.b, s.c, w32 (s.d + t1), s.e, s.f, s.g⟩

/-- Big-endian 32-bit words from a byte list (16 words for a 64-byte block). -/
def bytesToWords : List Nat → List Nat
  | b0 :: b1 :: b2 :: b3 :: rest =>
    (((b0 * 256 + b1) * 256 + b2) * 256 + b3) :: bytesToWords rest
  | _ => []

/-- Extend the 16 block words to the 64-entry message schedule. -/
def extendSchedule (w : List Nat) : List Nat :=
  (List.range 48).foldl
    (fun acc i =>
      let t := i + 16
      acc ++ [w32 (smallSigma1 (acc.getD (t - 2) 0) + acc.getD (t - 7) 0 +
                   smallSigma0 (acc.getD (t - 15) 0) + acc.getD (t - 16) 0)])
    w

/-- Compress one 64-byte block into the hash state. -/
def processBlock (H : Hash8) (block : List Nat) : Hash8 :=
  let w := extendSchedule (bytesToWords block)
  let s0 : SHAState := ⟨H.h0, H.h1, H.h2, H.h3, H.h4, H.h5, H.h6, H.h7⟩
  let sf := (w.zip K256).foldl shaStep s0
  ⟨w32 (H.h0 + sf.a), w32 (H.h1 + sf.b), w32 (H.h2 + sf.c), w32 (H.h3 + sf.d),
   w32 (H.h4 + sf.e), w32 (H.h5 + sf.f), w32 (H.h6 + sf.g), w32 (H.h7 + sf.h)⟩

/-- SHA-256 padding: append `0x80`, zeros to 56 mod 64, and the 64-bit
big-endian bit length. -/
def padMessage (msg : List Nat) : List Nat :=
  let L := msg.length
  let padLen := (119 - L % 64) % 64
  let bitLen := L * 8
  msg ++ [0x80] ++ List.replicate padLen 0 ++
    [bitLen / 2 ^ 56 % 256, bitLen / 2 ^ 48 % 256, bitLen / 2 ^ 40 % 256,
     bitLen / 2 ^ 32 % 256, bitLen / 2 ^ 24 % 256, bitLen / 2 ^ 16 % 256,
     bitLen / 2 ^ 8 % 256, bitLen % 256]

/-- Split a (padded) message into 64-byte blocks.  Structural recursion on a
fuel argument (each step consumes at least one byte, so `l.length` steps
always suffice); the fuel-exhaustion branch is unreachable. -/
def toBlocksAux : Nat → List Nat → List (List Nat)
  | _, [] => []
  | 0, l => [l]
  | fuel + 1, b :: rest => ((b :: rest).take 64) :: toBlocksAux fuel ((b :: rest).drop 64)

/-- Split a (padded) message into 64-byte blocks. -/
def toBlocks (l : List Nat) : List (List Nat) := toBlocksAux l.length l

/-- The four big-endian bytes of a 32-bit word. -/
def toBytes4 (w : Nat) : List Nat :=
  [w / 2 ^ 24 % 256, w / 2 ^ 16 % 256, w / 2 ^ 8 % 256, w % 256]

/-- SHA-256 of a byte list: the 32-byte digest. -/
def sha256 (msg : List Nat) : List Nat :=
  let final := (toBlocks (padMessage msg)).foldl processBlock initH
  toBytes4 final.h0 ++ toBytes4 final.h1 ++ toBytes4 final.h2 ++ toBytes4 final.h3 ++
  toBytes4 final.h4 ++ toBytes4 final.h5 ++ toBytes4 final.h6 ++ toBytes4 final.h7

/-- UTF-8 encoding of one character. -/
def utf8EncodeChar (c : Char) : List Nat :=
  let n := c.toNat
  if n < 0x80 then [n]
  else if n < 0x800 then [0xC0 + n / 64, 0x80 + n % 64]
  else if n < 0x10000 then [0xE0 + n / 4096, 0x80 + n / 64 % 64, 0x80 + n % 64]
  else [0xF0 + n / 262144, 0x80 + n / 4096 % 64, 0x80 + n / 64 % 64, 0x80 + n % 64]

/-- UTF-8 bytes of a string (Go `[]byte(input)`). -/
def utf8Bytes (s : String) : List Nat :=
  (s.data.map utf8EncodeChar).flatten

/-- `hashString` from `client.go`: SHA-256 the UTF-8 bytes, combine the first
four digest bytes exactly as the Go code does
(`uint32(h[0])<<24 | uint32(h[1])<<16 | uint32(h[2])<<8 | uint32(h[3])`),
and reduce modulo 100. -/
def hashString (input : String) : Nat :=
  let h := sha256 (utf8Bytes input)
  let num := (h.getD 0 0) <<< 24 ||| (h.getD 1 0) <<< 16 ||| (h.getD 2 0) <<< 8 ||| h.getD 3 0
  num % 100

/-- `isInRollout` from `client.go`. -/
def isInRollout (userID flagKey : String) (percentage : Int) : Bool :=
  if percentage == 0 then false
  else if percentage ≥ 100 then true
  else decide ((hashString (userID ++ ":" ++ flagKey) : Int) < percentage)

/-- FIPS 180-4 test vector: the SHA-256 digest of the empty message. -/
theorem sha256_empty_vector :
    sha256 [] =
      [227, 176, 196, 66, 152, 252, 28, 20, 154, 251, 244,
       200, 153, 111, 185, 36, 39, 174, 65, 228, 100, 155,
       147, 76, 164, 149, 153, 27, 120, 82, 184, 85] := by decide

/-- FIPS 180-4 test vector: the SHA-256 digest of `"abc"`. -/
theorem sha256_abc_vector :
    sha256 (utf8Bytes "abc") =
      [186, 120, 22, 191, 143, 1, 207, 234, 65, 65, 64,
       222, 93, 174, 34, 35, 176, 3, 97, 163, 150, 23,
       122, 156, 180, 16, 255, 97, 242, 0, 21, 173] := by decide

/-! ## Flag evaluation (`evaluateFlag` and helpers from `client.go`) -/

/-- `getOffValue` from `client.go`: the canonical "off" value per flag type. -/
def getOffValue (flagType : String) : Value :=
  match flagType with
  | "BOOLEAN" => Value.bool false
  | "STRING" => Value.str ""
  | "NUMBER" => Value.num 0
  | "JSON" => Value.null
  | _ => Value.null

/-- The user-id extraction at the top of `evaluateFlag`: context key
`user_id` (when it holds a string), else `userId`, else `""`. -/
def extractUserID (context : Ctx) : String :=
  match context.lookup "user_id" with
  | some (Value.str id) => id
  | _ =>
    match context.lookup "userId" with
    | some (Value.str id) => id
    | _ => ""

/-- The rule loop of `evaluateFlag`, one iteration per rule, mirroring the
Go `continue`/`return` structure.  `some v` models an early `return v`;
`none` means the loop fell through. -/
def evalRules (key : String) (defaultValue : Value) (context : Ctx) (userID : String) :
    List Rule → Option Value
  | [] => none
  | rule :: rest =>
    if !matchesRule rule context then evalRules key defaultValue context userID rest
    else
      let outcome : Option Value :=
        match rule.rollValue with
        | Value.null => some defaultValue
        | v => some v
      match rule.percentage with
      | some p =>
        if p < 100 then
          if userID == "" || !isInRollout userID key p then
            evalRules key defaultValue context userID rest
          else outcome
        else outcome
      | none => outcome

/-- A rule "qualifies" when its condition matches and its percentage gate
(if any, and below 100) passes: the exact condition under which the Go loop
returns at this rule instead of continuing. -/
def ruleQualifies (key userID : String) (context : Ctx) (rule : Rule) : Bool :=
  matchesRule rule context &&
    match rule.percentage with
    | some p => if p < 100 then !(userID == "") && isInRollout userID key p else true
    | none => true

/-- The value the Go loop returns at a qualifying rule: its `rollValue` when
present (non-nil), else the flag's `defaultValue`. -/
def ruleOutcome (defaultValue : Value) (rule : Rule) : Value :=
  match rule.rollValue with
  | Value.null => defaultValue
  | v => v

/-- `evaluateFlag` from `client.go`. -/
def evaluateFlag (config : FlagConfig) (context : Ctx) : Value :=
  if !config.enabled then config.defaultValue
  else
    let userID := extractUserID context
    match evalRules config.key config.defaultValue context userID config.rules with
    | some v => v
    | none =>
      if config.rolloutPercentage > 0 && !(userID == "") then
        if isInRollout userID config.key config.rolloutPercentage then config.defaultValue
        else getOffValue config.type
      else config.defaultValue

/-! ## Typed retrieval wrappers

The `Client` methods read the flag catalog (here passed explicitly: the
`c.flags` map under the read lock) and fall back to the caller's default on
a missing key or a type mismatch.  All wrappers are total functions: they
cannot raise.  Go's `GetNumberFlag` accepts `float64`/`float32`/`int`/
`int64`, which this model collapses into the single number constructor. -/

/-- `getFlagConfig` from `client.go` (the map lookup under the read lock). -/
def getFlagConfig (flags : List (String × FlagConfig)) (key : String) : Option FlagConfig :=
  flags.lookup key

/-- `GetBooleanFlag` from `client.go`. -/
def GetBooleanFlag (flags : List (String × FlagConfig)) (key : String)
    (defaultValue : Bool) (context : Ctx) : Bool :=
  match getFlagConfig flags key with
  | none => defaultValue
  | some config =>
    match evaluateFlag config context with
    | Value.bool v => v
    | _ => defaultValue

/-- `GetStringFlag` from `client.go`. -/
def GetStringFlag (flags : List (String × FlagConfig)) (key : String)
    (defaultValue : String) (context : Ctx) : String :=
  match getFlagConfig flags key with
  | none => defaultValue
  | some config =>
    match evaluateFlag config context with
    | Value.str v => v
    | _ => defaultValue

/-- `GetNumberFlag` from `client.go`. -/
def GetNumberFlag (flags : List (String × FlagConfig)) (key : String)
    (defaultValue : Rat) (context : Ctx) : Rat :=
  match getFlagConfig flags key with
  | none => defaultValue
  | some config =>
    match evaluateFlag config context with
    | Value.num v => v
    | _ => defaultValue

/-- `GetJSONFlag` from `client.go` (`nil` result falls back to the default). -/
def GetJSONFlag (flags : List (String × FlagConfig)) (key : String)
    (defaultValue : Value) (context : Ctx) : Value :=
  match getFlagConfig flags key with
  | none => defaultValue
  | some config =>
    match evaluateFlag config context with
    | Value.null => defaultValue
    | v => v

/-! ## Background refresh (`fetchFlags` from `client.go`)

The HTTP transport is an external collaborator; its per-attempt outcome is
modelled as a value: a transport error, or a response with a status code and
a decode result.  `fetchFlags` maps the previous catalog and an outcome to
the new catalog plus the list of errors handed to the configured `OnError`
callback (Go invokes the callback only when one is configured; the list
records the invocations such a callback receives). -/

/-- Outcome of one background fetch attempt, as seen by `fetchFlags`. -/
inductive FetchOutcome where
  | transportError (e : String)
  | response (status : Nat) (body : String)
      (decoded : Except String (List (String × FlagConfig)))

/-- The error message `fetchFlags` builds for a non-200 status. -/
def statusErrorMessage (status : Nat) (body : String) : String :=
  "API returned status " ++ toString status ++ ": " ++ body

/-- `fetchFlags` from `client.go` as a state transition on the cached
catalog.  Every failure path returns before the catalog assignment; only a
200 response that decodes successfully replaces the catalog (wholesale). -/
def fetchFlags (flags : List (String × FlagConfig)) (outcome : FetchOutcome) :
    List (String × FlagConfig) × List String :=
  match outcome with
  | FetchOutcome.transportError e => (flags, [e])
  | FetchOutcome.response status body decoded =>
    if status != 200 then (flags, [statusErrorMessage status body])
    else
      match decoded with
      | Except.error e => (flags, [e])
      | Except.ok newFlags => (newFlags, [])

/-! ## Staleness tracking (`checkStaleness` from `client.go`)

The repository carries a second variant of `client.go` (embedded in
`src/README.md`) whose `Client` additionally tracks staleness: fields
`lastUpdatedAt time.Time` and `staleFired bool`, a `MaxStaleAge` option and
an `OnStale` callback.  In that variant every failure path of the
background `fetchFlags` calls `checkStaleness()` after the error callback,
and both `fetchFlagsInitial` and a successful background fetch end with
`lastUpdatedAt = time.Now(); staleFired = false`.  The definitions below
embed exactly that code; `time.Time` is modelled as `Option Nat`, with
`none` for the zero `time.Time` (the `IsZero()` case, before any
successful fetch). -/

/-- The staleness fields of the `Client` struct in the staleness-tracking
`client.go` variant: the time of the last successful fetch (`none` models
the zero `time.Time`) and whether the stale callback has already fired for
the current stale episode. -/
structure StaleState where
  lastUpdatedAt : Option Nat
  staleFired : Bool

/-- `checkStaleness` from `client.go`, run after every failed background
poll: return immediately when `lastUpdatedAt.IsZero()`; otherwise, when
the age exceeds `maxStaleAge` and the alarm has not fired yet, set
`staleFired` and invoke the `OnStale` callback (Go invokes it only when
one is configured; the returned flag records that invocation). -/
def checkStaleness (maxStaleAge now : Nat) (c : StaleState) : StaleState × Bool :=
  match c.lastUpdatedAt with
  | none => (c, false)
  | some t =>
    let age := now - t
    if age > maxStaleAge && !c.staleFired then
      ({ c with staleFired := true }, true)
    else (c, false)

/-- The successful-fetch epilogue shared by `fetchFlagsInitial` and the
background `fetchFlags` in the staleness-tracking variant:
`lastUpdatedAt = time.Now(); staleFired = false`. -/
def refreshSuccess (now : Nat) (_c : StaleState) : StaleState :=
  { lastUpdatedAt := some now, staleFired := false }

/-- Run a stale episode: a sequence of failed polls (given by their check
times) with no intervening success, each performing the `checkStaleness`
call of the failure paths of `fetchFlags`; returns the final state and the
number of stale-callback invocations. -/
def runFailures (maxStaleAge : Nat) (c : StaleState) : List Nat → StaleState × Nat
  | [] => (c, 0)
  | now :: rest =>
    let step := checkStaleness maxStaleAge now c
    let tail := runFailures maxStaleAge step.1 rest
    (tail.1, (if step.2 then 1 else 0) + tail.2)

/-! ## Bridging lemmas -/

/-- One step of the rule loop: the Go loop returns this rule's outcome
exactly when the rule qualifies, and otherwise continues with the rest. -/
theorem evalRules_cons (key : String) (dv : Value) (context : Ctx) (userID : String)
    (rule : Rule) (rest : List Rule) :
    evalRules key dv context userID (rule :: rest) =
      if ruleQualifies key userID context rule then some (ruleOutcome dv rule)
      else evalRules key dv context userID rest := by
  have houtcome : (match rule.rollValue with
      | Value.null => some dv
      | v => some v) = some (ruleOutcome dv rule) := by
    unfold ruleOutcome; cases rule.rollValue <;> rfl
  simp only [evalRules, ruleQualifies, houtcome]
  by_cases hm : matchesRule rule context = true
  · simp only [hm, Bool.not_true, Bool.false_eq_true, if_false, Bool.true_and]
    cases hp : rule.percentage with
    | none => simp
    | some p =>
      by_cases hlt : p < 100
      · simp only [hlt, if_true]
        by_cases hu : (userID == "") = true
        · simp [hu]
        · simp only [Bool.not_eq_true] at hu
          by_cases hr : isInRollout userID key p = true
          · simp [hu, hr]
          · simp only [Bool.not_eq_true] at hr
            simp [hu, hr]
      · simp [hlt]
  · simp only [Bool.not_eq_true] at hm
    simp [hm]

/-- Rules that do not qualify are skipped by the loop. -/
theorem evalRules_append (key : String) (dv : Value) (context : Ctx) (userID : String)
    (pre l : List Rule)
    (h : ∀ r ∈ pre, ruleQualifies key userID context r = false) :
    evalRules key dv context userID (pre ++ l) = evalRules key dv context userID l := by
  induction pre with
  | nil => rfl
  | cons r rest ih =>
    rw [List.cons_append, evalRules_cons, h r (List.mem_cons_self r rest)]
    simp only [Bool.false_eq_true, if_false]
    exact ih (fun r2 hr2 => h r2 (List.mem_cons_of_mem _ hr2))

/-! ## Claims -/

/-- C2: `isInRollout` returns `false` whenever `percentage ≤ 0`, `true`
whenever `percentage ≥ 100`, and for `0 < percentage < 100` returns `true`
exactly when the bucket of `"{userId}:{flagKey}"` is below `percentage`. -/
theorem claim_C2_isInRollout_cases (userID flagKey : String) (percentage : Int) :
    (percentage ≤ 0 → isInRollout userID flagKey percentage = false) ∧
    (100 ≤ percentage → isInRollout userID flagKey percentage = true) ∧
    (0 < percentage → percentage < 100 →
      (isInRollout userID flagKey percentage = true ↔
        (hashString (userID ++ ":" ++ flagKey) : Int) < percentage)) := by
  refine ⟨?_, ?_, ?_⟩
  · intro hle
    unfold isInRollout
    by_cases h0 : percentage = 0
    · simp [h0]
    · have hnot : ¬ percentage ≥ 100 := by omega
      simp only [beq_iff_eq, h0, if_false, hnot, decide_eq_false_iff_not, not_lt]
      have : (0 : Int) ≤ (hashString (userID ++ ":" ++ flagKey) : Int) := Int.natCast_nonneg _
      omega
  · intro h100
    have h0 : percentage ≠ 0 := by omega
    simp [isInRollout, h0, h100, ge_iff_le]
  · intro h1 h2
    have h0 : percentage ≠ 0 := by omega
    have hnot : ¬ percentage ≥ 100 := by omega
    simp [isInRollout, h0, hnot]

/-- C2 witness: the zero- and hundred-percent cases at concrete inputs. -/
theorem claim_C2_witness :
    isInRollout "user-123" "flag" 0 = false ∧ isInRollout "user-123" "flag" 100 = true :=
  ⟨(claim_C2_isInRollout_cases "user-123" "flag" 0).1 (by decide),
   (claim_C2_isInRollout_cases "user-123" "flag" 100).2.1 (by decide)⟩

/-- C3: a disabled flag evaluates to its `defaultValue`, and neither the
rules nor the rollout percentage influence the result. -/
theorem claim_C3_disabled_returns_default (config : FlagConfig) (context : Ctx)
    (h : config.enabled = false) :
    evaluateFlag config context = config.defaultValue ∧
    ∀ rules rolloutPercentage,
      evaluateFlag { config with rules := rules, rolloutPercentage := rolloutPercentage }
        context = config.defaultValue := by
  constructor
  · simp [evaluateFlag, h]
  · intro rules p
    simp [evaluateFlag, h]

/-- C3 witness: a disabled boolean flag with a matching rule and a 100%
rollout still returns its `defaultValue`. -/
theorem claim_C3_witness :
    evaluateFlag
        { key := "k", type := "BOOLEAN", enabled := false, defaultValue := Value.bool true,
          rules := [{ attr := "plan", operator := "always", value := Value.null,
                      percentage := none, rollValue := Value.bool false }],
          rolloutPercentage := 100 }
        [("plan", Value.str "pro")] = Value.bool true :=
  (claim_C3_disabled_returns_default _ _ rfl).1

/-- C10 as stated is false: for `{enabled: true, defaultValue: false,
rolloutPercentage: 100, rules: []}` and context `{user_id: "u1"}`,
`evaluateFlag` does not return `true`. -/
theorem claim_C10_counterexample :
    evaluateFlag
        { key := "f", type := "BOOLEAN", enabled := true, defaultValue := Value.bool false,
          rules := [], rolloutPercentage := 100 }
        [("user_id", Value.str "u1")] ≠ Value.bool true := by
  intro hcontra
  have h : evaluateFlag
      { key := "f", type := "BOOLEAN", enabled := true, defaultValue := Value.bool false,
        rules := [], rolloutPercentage := 100 }
      [("user_id", Value.str "u1")] = Value.bool false := rfl
  rw [h] at hcontra
  exact absurd (Value.bool.inj hcontra) (by decide)

/-- C10 (amended): the scenario returns `false` — the configuration's
`defaultValue`, since a 100% rollout returns the default. -/
theorem claim_C10_amended :
    evaluateFlag
        { key := "f", type := "BOOLEAN", enabled := true, defaultValue := Value.bool false,
          rules := [], rolloutPercentage := 100 }
        [("user_id", Value.str "u1")] = Value.bool false := rfl

/-- C4: rules are evaluated in list order and the first qualifying rule
determines the result — for an enabled flag whose rule list decomposes as
`pre ++ rule :: post` with nothing in `pre` qualifying and `rule`
qualifying, the result is `rule`'s outcome (its `rollValue` when present,
else the `defaultValue`), for every `post` (later rules are never
consulted; in particular, when a second qualifying rule appears in `post`,
the earlier rule's outcome is returned). -/
theorem claim_C4_first_match_wins (config : FlagConfig) (context : Ctx)
    (pre post : List Rule) (rule : Rule)
    (henabled : config.enabled = true)
    (hrules : config.rules = pre ++ rule :: post)
    (hpre : ∀ r ∈ pre, ruleQualifies config.key (extractUserID context) context r = false)
    (hrule : ruleQualifies config.key (extractUserID context) context rule = true) :
    evaluateFlag config context = ruleOutcome config.defaultValue rule := by
  simp only [evaluateFlag, henabled, Bool.not_true, Bool.false_eq_true, if_false]
  rw [hrules, evalRules_append _ _ _ _ pre _ hpre, evalRules_cons, hrule]
  simp

/-- C4 witness: two qualifying rules (after a non-matching one); the
earlier qualifying rule's `rollValue` is returned. -/
theorem claim_C4_witness :
    evaluateFlag
        { key := "k", type := "STRING", enabled := true, defaultValue := Value.str "dv",
          rules :=
            [{ attr := "plan", operator := "equals", value := Value.str "free",
               percentage := none, rollValue := Value.str "skipped" },
             { attr := "plan", operator := "equals", value := Value.str "pro",
               percentage := none, rollValue := Value.str "first" },
             { attr := "plan", operator := "always", value := Value.null,
               percentage := none, rollValue := Value.str "second" }],
          rolloutPercentage := 0 }
        [("plan", Value.str "pro")]
      = ruleOutcome (Value.str "dv")
          { attr := "plan", operator := "equals", value := Value.str "pro",
            percentage := none, rollValue := Value.str "first" } :=
  claim_C4_first_match_wins _ _
    [{ attr := "plan", operator := "equals", value := Value.str "free",
       percentage := none, rollValue := Value.str "skipped" }]
    [{ attr := "plan", operator := "always", value := Value.null,
       percentage := none, rollValue := Value.str "second" }]
    _ rfl rfl
    (by intro r hr; rw [List.mem_singleton] at hr; subst hr; rfl)
    rfl

/-- C5: for an enabled flag evaluated with an empty extracted `userId`, a
rule carrying a percentage strictly below 100 never qualifies — even when
its condition matches — and evaluation continues with the remaining rules
rather than stopping. -/
theorem claim_C5_empty_user_skips_rule (config : FlagConfig) (context : Ctx)
    (rule : Rule) (rest : List Rule) (p : Int)
    (henabled : config.enabled = true)
    (huser : extractUserID context = "")
    (hp : rule.percentage = some p) (hlt : p < 100) :
    ruleQualifies config.key (extractUserID context) context rule = false ∧
    evaluateFlag { config with rules := rule :: rest } context
      = evaluateFlag { config with rules := rest } context := by
  have hq : ruleQualifies config.key (extractUserID context) context rule = false := by
    unfold ruleQualifies
    rw [huser, hp]
    simp [hlt]
  refine ⟨hq, ?_⟩
  simp only [evaluateFlag, henabled, Bool.not_true, Bool.false_eq_true, if_false]
  rw [evalRules_cons, hq]
  simp

/-- C5 witness: a matching rule gated at 50% with no user id in the context
does not qualify, and evaluation of the flag is unchanged by dropping it. -/
theorem claim_C5_witness :
    ruleQualifies "k" (extractUserID [("plan", Value.str "pro")]) [("plan", Value.str "pro")]
        { attr := "plan", operator := "equals", value := Value.str "pro",
          percentage := some 50, rollValue := Value.str "roll" } = false ∧
    evaluateFlag
        { ({ key := "k", type := "STRING", enabled := true, defaultValue := Value.str "dv",
             rules := [], rolloutPercentage := 0 } : FlagConfig) with rules :=
            [{ attr := "plan", operator := "equals", value := Value.str "pro",
               percentage := some 50, rollValue := Value.str "roll" }] }
        [("plan", Value.str "pro")]
      = evaluateFlag
          { ({ key := "k", type := "STRING", enabled := true, defaultValue := Value.str "dv",
               rules := [], rolloutPercentage := 0 } : FlagConfig) with rules := [] }
          [("plan", Value.str "pro")] := by
  exact claim_C5_empty_user_skips_rule
    { key := "k", type := "STRING", enabled := true, defaultValue := Value.str "dv",
      rules := [], rolloutPercentage := 0 }
    [("plan", Value.str "pro")] _ [] 50 rfl rfl rfl (by decide)

/-- C6: attribute lookup tries `context[rule.attr]` first, then the nested
`context["attributes"]` object; when the attribute is found in neither
place, `matchesRule` returns `false` (fails closed) regardless of the
operator. -/
theorem claim_C6_attribute_lookup (rule : Rule) (context : Ctx) :
    (∀ v, context.lookup rule.attr = some v →
      matchesRule rule context = applyOperator rule.operator v rule.value) ∧
    (context.lookup rule.attr = none →
      ∀ attrs v, context.lookup "attributes" = some (Value.obj attrs) →
        attrs.lookup rule.attr = some v →
        matchesRule rule context = applyOperator rule.operator v rule.value) ∧
    (context.lookup rule.attr = none →
      (∀ attrs, context.lookup "attributes" = some (Value.obj attrs) →
        attrs.lookup rule.attr = none) →
      matchesRule rule context = false) := by
  refine ⟨?_, ?_, ?_⟩
  · intro v hv
    simp [matchesRule, hv]
  · intro hnone attrs v hattrs hv
    simp [matchesRule, hnone, hattrs, hv]
  · intro hnone hno
    cases hat : context.lookup "attributes" with
    | none => simp [matchesRule, hnone, hat]
    | some w =>
      cases w with
      | obj attrs => simp [matchesRule, hnone, hat, hno attrs hat]
      | null => simp [matchesRule, hnone, hat]
      | bool b => simp [matchesRule, hnone, hat]
      | num q => simp [matchesRule, hnone, hat]
      | str s => simp [matchesRule, hnone, hat]
      | list xs => simp [matchesRule, hnone, hat]

/-- C6 witness: a directly-present attribute is used by the operator, and a
context without the attribute (and without a nested `attributes` object)
never matches. -/
theorem claim_C6_witness :
    matchesRule
        { attr := "plan", operator := "equals", value := Value.str "pro",
          percentage := none, rollValue := Value.null }
        [("plan", Value.str "pro")] = true ∧
    matchesRule
        { attr := "plan", operator := "equals", value := Value.str "pro",
          percentage := none, rollValue := Value.null }
        [] = false := by
  constructor
  · have h := (claim_C6_attribute_lookup
      { attr := "plan", operator := "equals", value := Value.str "pro",
        percentage := none, rollValue := Value.null }
      [("plan", Value.str "pro")]).1 (Value.str "pro") rfl
    rw [h]
    rfl
  · exact (claim_C6_attribute_lookup
      { attr := "plan", operator := "equals", value := Value.str "pro",
        percentage := none, rollValue := Value.null } []).2.2 rfl
      (fun attrs hat => Option.noConfusion hat)

/-- C7: every typed retrieval wrapper returns the caller-supplied default
when the flag key is missing from the catalog or when the evaluated value
does not match the requested type; the wrappers are total functions and
cannot raise. -/
theorem claim_C7_typed_wrappers (flags : List (String × FlagConfig)) (key : String)
    (bd : Bool) (sd : String) (nd : Rat) (jd : Value) (context : Ctx) :
    (getFlagConfig flags key = none →
      GetBooleanFlag flags key bd context = bd ∧
      GetStringFlag flags key sd context = sd ∧
      GetNumberFlag flags key nd context = nd ∧
      GetJSONFlag flags key jd context = jd) ∧
    (∀ config, getFlagConfig flags key = some config →
      ((∀ b, evaluateFlag config context ≠ Value.bool b) →
        GetBooleanFlag flags key bd context = bd) ∧
      ((∀ s, evaluateFlag config context ≠ Value.str s) →
        GetStringFlag flags key sd context = sd) ∧
      ((∀ q, evaluateFlag config context ≠ Value.num q) →
        GetNumberFlag flags key nd context = nd) ∧
      (evaluateFlag config context = Value.null →
        GetJSONFlag flags key jd context = jd)) := by
  constructor
  · intro h
    refine ⟨?_, ?_, ?_, ?_⟩ <;>
      simp [GetBooleanFlag, GetStringFlag, GetNumberFlag, GetJSONFlag, h]
  · intro config h
    refine ⟨?_, ?_, ?_, ?_⟩
    · intro hb
      unfold GetBooleanFlag
      rw [h]
      show (match evaluateFlag config context with
        | Value.bool v => v
        | _ => bd) = bd
      cases hv : evaluateFlag config context
      case bool b => exact absurd hv (hb b)
      all_goals rfl
    · intro hs
      unfold GetStringFlag
      rw [h]
      show (match evaluateFlag config context with
        | Value.str v => v
        | _ => sd) = sd
      cases hv : evaluateFlag config context
      case str s => exact absurd hv (hs s)
      all_goals rfl
    · intro hq
      unfold GetNumberFlag
      rw [h]
      show (match evaluateFlag config context with
        | Value.num v => v
        | _ => nd) = nd
      cases hv : evaluateFlag config context
      case num q => exact absurd hv (hq q)
      all_goals rfl
    · intro hnull
      unfold GetJSONFlag
      rw [h]
      show (match evaluateFlag config context with
        | Value.null => jd
        | v => v) = jd
      rw [hnull]

/-- C7 witness: a STRING-valued flag read through the boolean accessor
yields the caller's default, and a missing key yields the caller's default
through the string accessor. -/
theorem claim_C7_witness :
    GetBooleanFlag
        [("s", { key := "s", type := "STRING", enabled := false,
                 defaultValue := Value.str "hello", rules := [], rolloutPercentage := 0 })]
        "s" true [] = true ∧
    GetStringFlag
        [("s", { key := "s", type := "STRING", enabled := false,
                 defaultValue := Value.str "hello", rules := [], rolloutPercentage := 0 })]
        "missing" "fallback" [] = "fallback" := by
  constructor
  · exact ((claim_C7_typed_wrappers
      [("s", { key := "s", type := "STRING", enabled := false,
               defaultValue := Value.str "hello", rules := [], rolloutPercentage := 0 })]
      "s" true "fallback" 0 Value.null []).2
      { key := "s", type := "STRING", enabled := false,
        defaultValue := Value.str "hello", rules := [], rolloutPercentage := 0 } rfl).1
      (fun b hb => by
        have he : evaluateFlag
            { key := "s", type := "STRING", enabled := false,
              defaultValue := Value.str "hello", rules := [], rolloutPercentage := 0 }
            [] = Value.str "hello" := rfl
        rw [he] at hb
        exact Value.noConfusion hb)
  · exact ((claim_C7_typed_wrappers
      [("s", { key := "s", type := "STRING", enabled := false,
               defaultValue := Value.str "hello", rules := [], rolloutPercentage := 0 })]
      "missing" true "fallback" 0 Value.null []).1 rfl).2.1

/-- C8: a failed background refresh (transport error, non-200 status, or
decode failure) leaves the cached catalog exactly as it was and hands the
error to the configured error callback; the catalog is replaced — wholesale
— only by a fully successful fetch. -/
theorem claim_C8_failed_refresh_keeps_catalog (flags : List (String × FlagConfig))
    (e : String) (status : Nat) (body : String)
    (decoded : Except String (List (String × FlagConfig)))
    (newFlags : List (String × FlagConfig)) :
    fetchFlags flags (FetchOutcome.transportError e) = (flags, [e]) ∧
    (status ≠ 200 →
      fetchFlags flags (FetchOutcome.response status body decoded)
        = (flags, [statusErrorMessage status body])) ∧
    fetchFlags flags (FetchOutcome.response 200 body (Except.error e)) = (flags, [e]) ∧
    fetchFlags flags (FetchOutcome.response 200 body (Except.ok newFlags)) = (newFlags, []) ∧
    ∀ outcome, (fetchFlags flags outcome).1 = flags ∨
      ∃ b nf, outcome = FetchOutcome.response 200 b (Except.ok nf) ∧
        fetchFlags flags outcome = (nf, []) := by
  refine ⟨rfl, ?_, rfl, rfl, ?_⟩
  · intro hne
    simp [fetchFlags, hne]
  · intro outcome
    cases outcome with
    | transportError e2 => exact Or.inl rfl
    | response st b dec =>
      by_cases hst : st = 200
      · subst hst
        cases dec with
        | error e2 => exact Or.inl rfl
        | ok nf => exact Or.inr ⟨b, nf, rfl, rfl⟩
      · left
        simp [fetchFlags, hst]

/-- C8 witness: a 500 response leaves a one-entry catalog untouched and
reports the formatted status error. -/
theorem claim_C8_witness :
    fetchFlags
        [("f", { key := "f", type := "BOOLEAN", enabled := true,
                 defaultValue := Value.bool true, rules := [], rolloutPercentage := 0 })]
        (FetchOutcome.response 500 "oops" (Except.ok []))
      = ([("f", { key := "f", type := "BOOLEAN", enabled := true,
                  defaultValue := Value.bool true, rules := [], rolloutPercentage := 0 })],
         [statusErrorMessage 500 "oops"]) :=
  (claim_C8_failed_refresh_keeps_catalog _ "e" 500 "oops" (Except.ok []) []).2.1
    (by decide)

/-- Failed polls after the alarm has fired never fire it again (and the
alarm stays set) until a successful refresh resets it. -/
theorem runFailures_fired (maxStaleAge : Nat) (c : StaleState)
    (h : c.staleFired = true) (fails : List Nat) :
    (runFailures maxStaleAge c fails).2 = 0 := by
  induction fails generalizing c with
  | nil => rfl
  | cons now rest ih =>
    have hstep : checkStaleness maxStaleAge now c = (c, false) := by
      cases hl : c.lastUpdatedAt with
      | none => simp [checkStaleness, hl]
      | some t => simp [checkStaleness, hl, h]
    simp only [runFailures, hstep]
    rw [ih c h]
    simp

/-- C9: the stale-episode alarm fires at most once per stale episode —
within any run of consecutive failed polls the stale callback is invoked at
most once (never, when `staleFired` is already set); it is invoked, and
`staleFired` set, exactly at the first failed poll whose age check exceeds
the threshold with `lastUpdatedAt` set; it never fires while
`lastUpdatedAt` is the zero time; and a successful refresh resets
`staleFired` to `false`.  (`staleFired` is the code's name for the spec's
`staleAlarmFired`.) -/
theorem claim_C9_stale_alarm_once :
    (∀ now c, (refreshSuccess now c).staleFired = false) ∧
    (∀ maxStaleAge c fails,
      (runFailures maxStaleAge c fails).2 ≤ if c.staleFired then 0 else 1) ∧
    (∀ maxStaleAge now c t, c.staleFired = false → c.lastUpdatedAt = some t →
      now - t > maxStaleAge →
      checkStaleness maxStaleAge now c = ({ c with staleFired := true }, true)) ∧
    (∀ maxStaleAge now c, c.lastUpdatedAt = none →
      checkStaleness maxStaleAge now c = (c, false)) := by
  refine ⟨fun now c => rfl, ?_, ?_, ?_⟩
  · intro maxStaleAge c fails
    induction fails generalizing c with
    | nil => cases h : c.staleFired <;> simp [runFailures]
    | cons now rest ih =>
      cases h : c.staleFired
      · cases hl : c.lastUpdatedAt with
        | none =>
          have hstep : checkStaleness maxStaleAge now c = (c, false) := by
            simp [checkStaleness, hl]
          simp only [runFailures, hstep, h]
          have := ih c
          rw [h] at this
          simpa using this
        | some t =>
          by_cases hc : now - t > maxStaleAge
          · have hstep : checkStaleness maxStaleAge now c
                = ({ c with staleFired := true }, true) := by
              simp [checkStaleness, hl, h, hc]
            simp only [runFailures, hstep, h]
            rw [runFailures_fired maxStaleAge _ rfl rest]
            simp
          · have hstep : checkStaleness maxStaleAge now c = (c, false) := by
              simp [checkStaleness, hl, h, hc]
            simp only [runFailures, hstep, h]
            have := ih c
            rw [h] at this
            simpa using this
      · simp only [h]
        rw [runFailures_fired maxStaleAge c h (now :: rest)]
        simp
  · intro maxStaleAge now c t hf hl hc
    simp [checkStaleness, hl, hf, hc]
  · intro maxStaleAge now c hl
    simp [checkStaleness, hl]

/-- C9 witness: a success resets the alarm; a concrete three-failure
episode past the threshold fires at most once; the first exceeding failed
poll sets the alarm and invokes the callback; and before any successful
fetch (`lastUpdatedAt` zero) the alarm never fires. -/
theorem claim_C9_witness :
    (refreshSuccess 50 { lastUpdatedAt := some 0, staleFired := true }).staleFired = false ∧
    (runFailures 5 { lastUpdatedAt := some 0, staleFired := false } [10, 20, 30]).2 ≤ 1 ∧
    checkStaleness 5 10 { lastUpdatedAt := some 0, staleFired := false }
      = ({ lastUpdatedAt := some 0, staleFired := true }, true) ∧
    checkStaleness 5 10 { lastUpdatedAt := none, staleFired := false }
      = ({ lastUpdatedAt := none, staleFired := false }, false) := by
  refine ⟨claim_C9_stale_alarm_once.1 50 _, ?_, ?_, ?_⟩
  · exact claim_C9_stale_alarm_once.2.1 5 { lastUpdatedAt := some 0, staleFired := false }
      [10, 20, 30]
  · exact claim_C9_stale_alarm_once.2.2.1 5 10 _ 0 rfl rfl (by decide)
  · exact claim_C9_stale_alarm_once.2.2.2 5 10 _ rfl

/-- A byte list read as a big-endian unsigned integer (for four bytes: the
spec's "first 4 bytes as a big-endian unsigned 32-bit integer"). -/
def beUInt32 (bytes : List Nat) : Nat :=
  bytes.foldl (fun acc b => acc * 256 + b) 0

/-- The Go shift/or combination of four digest bytes equals their value as
a big-endian positional number. -/
theorem combine_bytes_lor (b0 b1 b2 b3 : Nat)
    (h1 : b1 < 256) (h2 : b2 < 256) (h3 : b3 < 256) :
    b0 <<< 24 ||| b1 <<< 16 ||| b2 <<< 8 ||| b3
      = ((b0 * 256 + b1) * 256 + b2) * 256 + b3 := by
  have e0 : b0 <<< 24 = 2 ^ 24 * b0 := by rw [Nat.shiftLeft_eq]; ring
  have e1 : b1 <<< 16 = 2 ^ 16 * b1 := by rw [Nat.shiftLeft_eq]; ring
  have e2 : b2 <<< 8 = 2 ^ 8 * b2 := by rw [Nat.shiftLeft_eq]; ring
  rw [e0, e1, e2]
  have lt1 : 2 ^ 16 * b1 < 2 ^ 24 := by omega
  have s1 : 2 ^ 24 * b0 ||| 2 ^ 16 * b1 = 2 ^ 24 * b0 + 2 ^ 16 * b1 :=
    (Nat.mul_add_lt_is_or lt1 b0).symm
  rw [s1]
  have ea : 2 ^ 24 * b0 + 2 ^ 16 * b1 = 2 ^ 16 * (2 ^ 8 * b0 + b1) := by ring
  have lt2 : 2 ^ 8 * b2 < 2 ^ 16 := by omega
  have s2 : 2 ^ 16 * (2 ^ 8 * b0 + b1) ||| 2 ^ 8 * b2
      = 2 ^ 16 * (2 ^ 8 * b0 + b1) + 2 ^ 8 * b2 := (Nat.mul_add_lt_is_or lt2 _).symm
  rw [ea, s2]
  have eb : 2 ^ 16 * (2 ^ 8 * b0 + b1) + 2 ^ 8 * b2
      = 2 ^ 8 * (2 ^ 16 * b0 + 2 ^ 8 * b1 + b2) := by ring
  have s3 : 2 ^ 8 * (2 ^ 16 * b0 + 2 ^ 8 * b1 + b2) ||| b3
      = 2 ^ 8 * (2 ^ 16 * b0 + 2 ^ 8 * b1 + b2) + b3 := (Nat.mul_add_lt_is_or h3 _).symm
  rw [eb, s3]
  ring

/-- Combining the first four digest bytes Go-style and reading the first
four digest bytes as a big-endian number agree. -/
theorem digest_first_word (X : Hash8) (tail : List Nat) :
    ((toBytes4 X.h0 ++ tail).getD 0 0 <<< 24 ||| (toBytes4 X.h0 ++ tail).getD 1 0 <<< 16 |||
     (toBytes4 X.h0 ++ tail).getD 2 0 <<< 8 ||| (toBytes4 X.h0 ++ tail).getD 3 0) % 100
      = beUInt32 ((toBytes4 X.h0 ++ tail).take 4) % 100 := by
  show ((X.h0 / 2 ^ 24 % 256) <<< 24 ||| (X.h0 / 2 ^ 16 % 256) <<< 16 |||
        (X.h0 / 2 ^ 8 % 256) <<< 8 ||| X.h0 % 256) % 100
      = beUInt32 [X.h0 / 2 ^ 24 % 256, X.h0 / 2 ^ 16 % 256, X.h0 / 2 ^ 8 % 256,
          X.h0 % 256] % 100
  rw [combine_bytes_lor _ _ _ _ (Nat.mod_lt _ (by norm_num)) (Nat.mod_lt _ (by norm_num))
      (Nat.mod_lt _ (by norm_num))]
  have hbe : beUInt32 [X.h0 / 2 ^ 24 % 256, X.h0 / 2 ^ 16 % 256, X.h0 / 2 ^ 8 % 256,
        X.h0 % 256]
      = ((X.h0 / 2 ^ 24 % 256 * 256 + X.h0 / 2 ^ 16 % 256) * 256 + X.h0 / 2 ^ 8 % 256) * 256
        + X.h0 % 256 := by
    simp only [beUInt32, List.foldl]
    ring
  rw [hbe]

/-- `hashString` computes exactly the spec's bucket: the first four bytes
of the SHA-256 digest read as a big-endian 32-bit integer, modulo 100. -/
theorem hashString_spec (input : String) :
    hashString input = beUInt32 ((sha256 (utf8Bytes input)).take 4) % 100 :=
  digest_first_word ((toBlocks (padMessage (utf8Bytes input))).foldl processBlock initH) _

/-- C1: for every `(userId, flagKey)` the rollout bucket equals the first
four bytes of the SHA-256 digest of the UTF-8 bytes of
`"{userId}:{flagKey}"`, read as a big-endian unsigned 32-bit integer,
modulo 100; and the bucket always lies in `[0,100)`.  (Determinism is
definitional: `hashString` is a pure function of its input.) -/
theorem claim_C1_bucket_construction (userId flagKey : String) :
    hashString (userId ++ ":" ++ flagKey)
      = beUInt32 ((sha256 (utf8Bytes (userId ++ ":" ++ flagKey))).take 4) % 100 ∧
    hashString (userId ++ ":" ++ flagKey) < 100 :=
  ⟨hashString_spec _, Nat.mod_lt _ (by norm_num)⟩
